import Mathlib

/-!
Verification of the offline-first attendance synchronization core of the
Attendance_Checkin_System repository (Python: `sync_queue.py`, `db_helper.py`,
`database.py`, and the data-access layer of `app.py`).

Shallow embedding conventions:
* The two SQLite tables `attendance_log` and `sync_queue` are lists of rows in
  insertion (rowid) order; `AUTOINCREMENT` ids are modelled by explicit
  `next_att_id` / `next_queue_id` counters on the database state.
* Timestamps produced by `_utc_now()` are ISO-8601 strings in the source, whose
  lexicographic order is chronological; they are modelled as natural numbers
  supplied by the caller (`now`).  Domain strings such as `date` and
  `check_in_time` stay strings.
* `uuid.uuid4()` results are modelled as a `String` parameter supplied by the
  environment.
* JSON queue payloads are modelled structurally (the repository only ever
  serializes the two dict shapes written by `add_pending_check_in` and
  `add_pending_checkout`, and `json.loads` of what `json.dumps` wrote always
  succeeds).
* The Google Sheet is modelled at the granularity of `gspread`'s
  `get_all_records()`: a list of records whose fields are the attendance
  headers (`ensure_attendance_headers` guarantees all headers exist), with
  `None` cell writes reading back as empty strings.
* Network failure of a remote call is modelled by an oracle on the environment:
  `fail_dispatch` (for the flush loop, keyed by queue item id) and an explicit
  `direct_fail` argument for the single best-effort direct write attempt in
  `add_check_in` / `checkout_by_tag`.  A failing remote call raises before any
  of its effects are applied, matching a failed HTTP request.
* Python dict values that may be `None` are `Option String`; a missing key and
  a key holding `None` are both `none` (they are distinguishable in the source
  only through the `details.get('camp_group', '')` default, and no verified
  property depends on that distinction).
-/

namespace AttendanceCheckin

/-- Row of the `attendance_log` table (schema in `database.py`, `init_database`).
`sync_status` has schema default `'synced'`; `check_out_time` defaults to `''`. -/
structure AttRow where
  id : Nat
  date : String
  child_name : String
  service : String
  day_tag : String
  check_in_time : String
  check_out_time : String
  status : String
  event_id : Option String
  event_name : Option String
  session_id : Option String
  session_label : Option String
  session_period : Option String
  state : Option String
  church_location : Option String
  camp_group : Option String
  notes : Option String
  sync_status : String
  synced_at : Option Nat
  sync_uuid : Option String
  deriving DecidableEq, Repr

/-- The JSON payload written by `add_pending_check_in` (sync_queue.py lines 61-78).
`service` and `session_label` are always plain strings there (`session_label`
is `details.get("session_label") or service`). -/
structure CheckInPayload where
  attendance_id : Nat
  date : String
  child_name : String
  service : String
  day_tag : String
  check_in_time : String
  sync_uuid : String
  event_id : Option String
  event_name : Option String
  session_id : Option String
  session_label : String
  session_period : Option String
  state : Option String
  church_location : Option String
  camp_group : String
  notes : Option String
  deriving DecidableEq, Repr

/-- The JSON payload written by `add_pending_checkout` (sync_queue.py lines 191-197). -/
structure CheckoutPayload where
  attendance_ids : List Nat
  date : String
  day_tag : String
  checkout_time : String
  child_names : List String
  deriving DecidableEq, Repr

/-- Structured model of the serialized `payload` column of `sync_queue`. -/
inductive Payload where
  | checkIn (p : CheckInPayload)
  | checkout (p : CheckoutPayload)
  deriving DecidableEq, Repr

/-- Row of the `sync_queue` table (schema in `database.py`, `init_database`). -/
structure QueueRow where
  id : Nat
  record_type : String
  record_id : Option Nat
  operation : String
  payload : Payload
  status : String
  attempts : Nat
  last_error : Option String
  last_attempt_at : Option Nat
  sync_uuid : String
  created_at : Nat
  updated_at : Nat
  deriving DecidableEq, Repr

/-- The local SQLite database state: both tables plus the AUTOINCREMENT counters. -/
structure LocalDB where
  attendance_log : List AttRow
  sync_queue : List QueueRow
  next_att_id : Nat
  next_queue_id : Nat
  deriving DecidableEq, Repr

/-- One record of the remote Google Sheet as returned by `get_all_records()`;
`ensure_attendance_headers` guarantees every header of `ATTENDANCE_HEADERS`
exists, and empty cells read back as `""`. -/
structure SheetRec where
  date : String
  child_name : String
  event_name : String
  event_id : String
  session_label : String
  session_period : String
  session_id : String
  state : String
  church_location : String
  camp_group : String
  service : String
  day_tag : String
  check_in_time : String
  check_out_time : String
  status : String
  notes : String
  deriving DecidableEq, Repr

/-- Combined system state in production mode: local SQLite store plus the sheet. -/
structure SysState where
  db : LocalDB
  sheet : List SheetRec
  deriving DecidableEq, Repr

/-- Python truthiness-based `a or b` for an optional string: `None` and `""`
are falsy. -/
def pyOrS (a : Option String) (b : String) : String :=
  match a with
  | none => b
  | some s => if s = "" then b else s

/-- Python truthiness-based `a or b` where both sides are optional strings. -/
def pyOrOpt (a : Option String) (b : Option String) : Option String :=
  match a with
  | none => b
  | some s => if s = "" then b else some s

/-- `error_message[:500]` (sync_queue.py truncates stored error text). -/
def truncErr (s : String) : String :=
  ⟨s.data.take 500⟩

/-! ## sync_queue.py operations -/

/-- `record_sync_attempt(queue_id)`: attempts += 1, sets `last_attempt_at` and
`updated_at` on the row with the given id. -/
def record_sync_attempt (now : Nat) (queue_id : Nat) (db : LocalDB) : LocalDB :=
  { db with sync_queue := db.sync_queue.map fun q =>
      if q.id = queue_id then
        { q with attempts := q.attempts + 1, last_attempt_at := some now, updated_at := now }
      else q }

/-- `mark_queue_item_synced(queue_id)`: status := 'synced', clears `last_error`. -/
def mark_queue_item_synced (now : Nat) (queue_id : Nat) (db : LocalDB) : LocalDB :=
  { db with sync_queue := db.sync_queue.map fun q =>
      if q.id = queue_id then
        { q with status := "synced", updated_at := now, last_error := none }
      else q }

/-- `mark_queue_item_failed(queue_id, error_message)`: status := 'failed',
stores the truncated error text. -/
def mark_queue_item_failed (now : Nat) (queue_id : Nat) (msg : String) (db : LocalDB) : LocalDB :=
  { db with sync_queue := db.sync_queue.map fun q =>
      if q.id = queue_id then
        { q with status := "failed", last_error := some (truncErr msg), updated_at := now }
      else q }

/-- `update_queue_error(queue_id, error_message)`: stores the truncated error
text, leaves `status` untouched. -/
def update_queue_error (now : Nat) (queue_id : Nat) (msg : String) (db : LocalDB) : LocalDB :=
  { db with sync_queue := db.sync_queue.map fun q =>
      if q.id = queue_id then
        { q with last_error := some (truncErr msg), updated_at := now }
      else q }

/-- `mark_attendance_synced(attendance_id)`. -/
def mark_attendance_synced (now : Nat) (attendance_id : Nat) (db : LocalDB) : LocalDB :=
  { db with attendance_log := db.attendance_log.map fun r =>
      if r.id = attendance_id then
        { r with sync_status := "synced", synced_at := some now }
      else r }

/-- `mark_attendance_failed(attendance_id)`. -/
def mark_attendance_failed (attendance_id : Nat) (db : LocalDB) : LocalDB :=
  { db with attendance_log := db.attendance_log.map fun r =>
      if r.id = attendance_id then
        { r with sync_status := "failed", synced_at := none }
      else r }

/-- `reset_failed_queue_items()`: bulk status failed → pending. -/
def reset_failed_queue_items (now : Nat) (db : LocalDB) : LocalDB :=
  { db with sync_queue := db.sync_queue.map fun q =>
      if q.status = "failed" then
        { q with status := "pending", updated_at := now, last_error := none }
      else q }

/-- The `details` dict handed to `add_pending_check_in` / `add_check_in`; every
field is the value stored under the corresponding key (`none` for a missing key
or a `None` value). -/
structure Details where
  event_id : Option String
  event_name : Option String
  session_id : Option String
  session_label : Option String
  session_period : Option String
  state : Option String
  church_location : Option String
  camp_group : Option String
  notes : Option String
  service : Option String
  deriving DecidableEq, Repr

/-- The dict returned by `add_pending_check_in` (sync_queue.py lines 96-118). -/
structure PendingCheckInView where
  id : Nat
  date : String
  child_name : String
  service : String
  day_tag : String
  check_in_time : String
  check_out_time : String
  status : String
  row_id : Nat
  sync_status : String
  sync_uuid : String
  queue_id : Nat
  event_id : Option String
  event_name : Option String
  session_id : Option String
  session_label : String
  session_period : Option String
  state : Option String
  church_location : Option String
  camp_group : String
  notes : Option String
  deriving DecidableEq, Repr

/-- The named-column list of the attendance INSERT in `add_pending_check_in`
(sync_queue.py lines 47-51), transcribed verbatim: nineteen columns. -/
def checkInInsertColumns : List String :=
  ["date", "child_name", "service", "day_tag", "check_in_time", "check_out_time", "status",
   "event_id", "event_name", "session_id", "session_label", "session_period",
   "state", "church_location", "camp_group", "notes",
   "sync_status", "synced_at", "sync_uuid"]

/-- The VALUES row of the same INSERT (sync_queue.py line 52), transcribed
verbatim: twenty parameter markers. -/
def checkInInsertValues : String :=
  "VALUES (?, ?, ?, ?, ?, ?, ?, ?, ?, ?, ?, ?, ?, ?, ?, ?, ?, ?, ?, ?)"

/-- Number of `?` parameter markers in a VALUES row. -/
def countQMarks (s : String) : Nat :=
  (s.data.filter (· = '?')).length

/-- `add_pending_check_in(date, child_name, service, day_tag, check_in_time, details)`:
the INTENDED effect — insert one attendance row (`sync_status='pending'`, fresh
uuid) and one queue item (`operation='check_in'`, payload = full record
snapshot), committing both before returning the combined view.  The attendance
INSERT as written in the source cannot execute: it names the nineteen
`checkInInsertColumns` but supplies the twenty-marker `checkInInsertValues`
row, and sqlite rejects that arity mismatch with `OperationalError` at
`execute`, before any write (see `add_pending_check_in_raises`, which wraps
this intended body in that guard).  This definition binds the nineteen named
columns to the nineteen supplied parameters — the evidently intended
statement — because it is the behaviour the rest of the data-access layer
(`add_check_in`'s enqueue branch) is written against; properties verified about
callers hold on branches reached before this call. -/
def add_pending_check_in (uuid : String) (now : Nat)
    (date child_name service day_tag check_in_time : String) (details : Details)
    (db : LocalDB) : LocalDB × PendingCheckInView :=
  let session_label := pyOrS details.session_label service
  let camp_group := details.camp_group.getD ""
  let attendance_id := db.next_att_id
  let row : AttRow :=
    { id := attendance_id, date := date, child_name := child_name, service := service,
      day_tag := day_tag, check_in_time := check_in_time, check_out_time := "",
      status := "Checked-In",
      event_id := details.event_id, event_name := details.event_name,
      session_id := details.session_id, session_label := some session_label,
      session_period := details.session_period, state := details.state,
      church_location := details.church_location, camp_group := some camp_group,
      notes := details.notes,
      sync_status := "pending", synced_at := none, sync_uuid := some uuid }
  let payload : CheckInPayload :=
    { attendance_id := attendance_id, date := date, child_name := child_name,
      service := service, day_tag := day_tag, check_in_time := check_in_time,
      sync_uuid := uuid,
      event_id := details.event_id, event_name := details.event_name,
      session_id := details.session_id, session_label := session_label,
      session_period := details.session_period, state := details.state,
      church_location := details.church_location, camp_group := camp_group,
      notes := details.notes }
  let queue_id := db.next_queue_id
  let qrow : QueueRow :=
    { id := queue_id, record_type := "attendance_log", record_id := some attendance_id,
      operation := "check_in", payload := .checkIn payload, status := "pending",
      attempts := 0, last_error := none, last_attempt_at := none,
      sync_uuid := uuid, created_at := now, updated_at := now }
  let db' : LocalDB :=
    { attendance_log := db.attendance_log ++ [row],
      sync_queue := db.sync_queue ++ [qrow],
      next_att_id := db.next_att_id + 1,
      next_queue_id := db.next_queue_id + 1 }
  (db',
   { id := attendance_id, date := date, child_name := child_name, service := service,
     day_tag := day_tag, check_in_time := check_in_time, check_out_time := "",
     status := "Checked-In", row_id := attendance_id, sync_status := "pending",
     sync_uuid := uuid, queue_id := queue_id,
     event_id := details.event_id, event_name := details.event_name,
     session_id := details.session_id, session_label := session_label,
     session_period := details.session_period, state := details.state,
     church_location := details.church_location, camp_group := camp_group,
     notes := details.notes })

/-- `add_pending_check_in` as the program actually executes it: sqlite accepts
a parameterized INSERT only when the named-column list and the VALUES row have
the same arity; otherwise `cursor.execute` raises
`OperationalError("N values for M columns")` and nothing is inserted or
committed — the exception propagates to the caller with the database
unchanged. -/
def add_pending_check_in_raises (uuid : String) (now : Nat)
    (date child_name service day_tag check_in_time : String) (details : Details)
    (db : LocalDB) : Except String (LocalDB × PendingCheckInView) :=
  if checkInInsertColumns.length = countQMarks checkInInsertValues then
    .ok (add_pending_check_in uuid now date child_name service day_tag check_in_time
      details db)
  else
    .error (toString (countQMarks checkInInsertValues) ++ " values for "
      ++ toString checkInInsertColumns.length ++ " columns")

/-- Row-match predicate of the checkout SELECT/UPDATE:
`date = ? AND day_tag = ? AND status = 'Checked-In'`. -/
def checkoutMatch (date day_tag : String) (r : AttRow) : Bool :=
  decide (r.date = date ∧ r.day_tag = day_tag ∧ r.status = "Checked-In")

/-- The dict returned by `add_pending_checkout`. -/
structure QueuedCheckout where
  attendance_ids : List Nat
  child_names : List String
  sync_uuid : String
  queue_id : Nat
  deriving DecidableEq, Repr

/-- `add_pending_checkout(date, day_tag, checkout_time)`: selects all rows with
`date/day_tag/status='Checked-In'`, stamps them checked out with
`sync_status='pending'` (`WHERE id IN (matched ids)`), and enqueues one
`operation='checkout'` queue item whose payload lists the matched ids/names.
The queue item is created even when nothing matched. -/
def add_pending_checkout (uuid : String) (now : Nat)
    (date day_tag checkout_time : String) (db : LocalDB) : LocalDB × QueuedCheckout :=
  let rows := db.attendance_log.filter (checkoutMatch date day_tag)
  let attendance_ids := rows.map (·.id)
  let child_names := rows.map (·.child_name)
  let att' :=
    if attendance_ids.isEmpty then db.attendance_log
    else db.attendance_log.map fun r =>
      if attendance_ids.contains r.id then
        { r with check_out_time := checkout_time, status := "Checked-Out",
                 sync_status := "pending", synced_at := none }
      else r
  let payload : CheckoutPayload :=
    { attendance_ids := attendance_ids, date := date, day_tag := day_tag,
      checkout_time := checkout_time, child_names := child_names }
  let queue_id := db.next_queue_id
  let qrow : QueueRow :=
    { id := queue_id, record_type := "attendance_log", record_id := none,
      operation := "checkout", payload := .checkout payload, status := "pending",
      attempts := 0, last_error := none, last_attempt_at := none,
      sync_uuid := uuid, created_at := now, updated_at := now }
  ({ db with attendance_log := att', sync_queue := db.sync_queue ++ [qrow],
             next_queue_id := db.next_queue_id + 1 },
   { attendance_ids := attendance_ids, child_names := child_names,
     sync_uuid := uuid, queue_id := queue_id })

/-- ORDER BY `created_at ASC` (ISO timestamps; lexicographic = chronological). -/
def createdLe (a b : QueueRow) : Prop := a.created_at ≤ b.created_at

instance : DecidableRel createdLe := fun a b =>
  inferInstanceAs (Decidable (a.created_at ≤ b.created_at))

instance : IsTotal QueueRow createdLe := ⟨fun a b => Nat.le_total a.created_at b.created_at⟩

instance : IsTrans QueueRow createdLe := ⟨fun _ _ _ h h' => Nat.le_trans h h'⟩

/-- `fetch_pending_queue(limit)`: pending rows ordered by `created_at` ascending,
at most `limit` of them.  SQLite leaves the relative order of equal keys
unspecified; the model fixes the stable insertion-sort order. -/
def fetch_pending_queue (limit : Nat) (db : LocalDB) : List QueueRow :=
  ((db.sync_queue.filter fun q => q.status == "pending").insertionSort createdLe).take limit

/-- ORDER BY `date DESC, check_in_time DESC` of `get_pending_attendance`. -/
def pendOrder (a b : AttRow) : Prop :=
  b.date < a.date ∨ (a.date = b.date ∧ b.check_in_time ≤ a.check_in_time)

instance : DecidableRel pendOrder := fun a b =>
  inferInstanceAs (Decidable (b.date < a.date ∨ (a.date = b.date ∧ b.check_in_time ≤ a.check_in_time)))

/-- `get_pending_attendance(date=None)`: rows with `sync_status != 'synced'`,
optionally filtered by date, ordered date/check-in time descending.  The dict
conversion in the source is a field-for-field rename and is modelled as the
identity on rows. -/
def get_pending_attendance (date : Option String) (db : LocalDB) : List AttRow :=
  ((db.attendance_log.filter fun r =>
      r.sync_status != "synced" && (match date with | none => true | some d => r.date == d))
    ).insertionSort pendOrder

/-! ## db_helper.py (local-only backend) -/

/-- `db_helper.add_attendance_log(...)`: INSERT that names none of the sync
columns, so the schema defaults of `database.py` apply:
`sync_status = 'synced'`, `synced_at = NULL`, `sync_uuid = NULL`. -/
def db_add_attendance_log (date child_name service day_tag check_in_time status : String)
    (event_id event_name session_id session_label session_period
     state church_location camp_group notes : Option String)
    (db : LocalDB) : LocalDB :=
  let row : AttRow :=
    { id := db.next_att_id, date := date, child_name := child_name, service := service,
      day_tag := day_tag, check_in_time := check_in_time, check_out_time := "",
      status := status,
      event_id := event_id, event_name := event_name, session_id := session_id,
      session_label := session_label, session_period := session_period,
      state := state, church_location := church_location, camp_group := camp_group,
      notes := notes,
      sync_status := "synced", synced_at := none, sync_uuid := none }
  { db with attendance_log := db.attendance_log ++ [row],
            next_att_id := db.next_att_id + 1 }

/-- ORDER BY `check_in_time` of `db_helper.get_logs_by_date`. -/
def logOrder (a b : AttRow) : Prop := a.check_in_time ≤ b.check_in_time

instance : DecidableRel logOrder := fun a b =>
  inferInstanceAs (Decidable (a.check_in_time ≤ b.check_in_time))

/-- `db_helper.get_logs_by_date(date)` (dict conversion modelled as identity). -/
def db_get_logs_by_date (date : String) (db : LocalDB) : List AttRow :=
  (db.attendance_log.filter fun r => r.date == date).insertionSort logOrder

/-- `db_helper.checkout_by_tag(date, tag, checkout_time)`: collects the names of
matching Checked-In rows, then re-runs the same WHERE clause as an UPDATE
setting only `check_out_time` and `status` (no sync bookkeeping). -/
def db_checkout_by_tag (date tag checkout_time : String) (db : LocalDB) :
    LocalDB × List String :=
  let rows := db.attendance_log.filter (checkoutMatch date tag)
  let updated_children := rows.map (·.child_name)
  let att' :=
    if rows.isEmpty then db.attendance_log
    else db.attendance_log.map fun r =>
      if checkoutMatch date tag r then
        { r with check_out_time := checkout_time, status := "Checked-Out" }
      else r
  ({ db with attendance_log := att' }, updated_children)

/-! ## app.py remote-sheet helpers -/

/-- The `record` dict assembled for `append_attendance_row` (all sixteen keys of
`HEADER_TO_RECORD_KEY` are present; values may be `None`). -/
structure CheckInRecord where
  date : Option String
  child_name : Option String
  event_name : Option String
  event_id : Option String
  session_label : Option String
  session_period : Option String
  session_id : Option String
  state : Option String
  church_location : Option String
  camp_group : Option String
  service : Option String
  day_tag : Option String
  check_in_time : Option String
  check_out_time : Option String
  status : Option String
  notes : Option String
  deriving DecidableEq, Repr

/-- `append_attendance_row(log_sheet, record)`: one sheet row per record, one
cell per header; a `None` value is written as an empty cell and reads back as
`""` through `get_all_records()`. -/
def append_attendance_row (sheet : List SheetRec) (record : CheckInRecord) : List SheetRec :=
  sheet ++ [{ date := record.date.getD "", child_name := record.child_name.getD "",
              event_name := record.event_name.getD "", event_id := record.event_id.getD "",
              session_label := record.session_label.getD "",
              session_period := record.session_period.getD "",
              session_id := record.session_id.getD "", state := record.state.getD "",
              church_location := record.church_location.getD "",
              camp_group := record.camp_group.getD "", service := record.service.getD "",
              day_tag := record.day_tag.getD "", check_in_time := record.check_in_time.getD "",
              check_out_time := record.check_out_time.getD "", status := record.status.getD "",
              notes := record.notes.getD "" }]

/-- Row-match of `perform_remote_checkout` (app.py lines 400-402):
`Date == date and Day Tag == str(day_tag) and Status == 'Checked-In'`. -/
def sheetCheckoutMatch (date day_tag : String) (r : SheetRec) : Bool :=
  decide (r.date = date ∧ r.day_tag = day_tag ∧ r.status = "Checked-In")

/-- `perform_remote_checkout(log_sheet, date, day_tag, checkout_time)`: updates
the check-out time and status cells of every matching row and returns the
matched child names (the match is evaluated against the pre-update snapshot
from `get_all_values()`, and each row is updated independently). -/
def perform_remote_checkout (date day_tag checkout_time : String)
    (sheet : List SheetRec) : List String × List SheetRec :=
  ((sheet.filter (sheetCheckoutMatch date day_tag)).map (·.child_name),
   sheet.map fun r =>
     if sheetCheckoutMatch date day_tag r then
       { r with check_out_time := checkout_time, status := "Checked-Out" }
     else r)

/-! ## app.py flush loop (`process_pending_queue`) -/

/-- Flush-time environment: the logical clock for `_utc_now()` and the network
oracle — `fail_dispatch qid = some msg` means the remote call made while
dispatching queue item `qid` raises `msg` before any of its effects land. -/
structure RemoteEnv where
  now : Nat
  fail_dispatch : Nat → Option String

/-- The record dict built in the `check_in` arm of the flush loop (app.py lines
466-483): every field comes from `payload.get`, with `check_out_time`
defaulting to `""` and `status` to `'Checked-In'` (keys absent from check-in
payloads). -/
def recordOfCheckInPayload (p : CheckInPayload) : CheckInRecord :=
  { date := some p.date, child_name := some p.child_name,
    event_name := p.event_name, event_id := p.event_id,
    session_label := pyOrOpt (some p.session_label) (some p.service),
    session_period := p.session_period, session_id := p.session_id,
    state := p.state, church_location := p.church_location,
    camp_group := some p.camp_group, service := some p.service,
    day_tag := some p.day_tag, check_in_time := some p.check_in_time,
    check_out_time := some "", status := some "Checked-In", notes := p.notes }

/-- The same record-building `payload.get` calls applied to a checkout-shaped
payload dict (unreachable from repository-created queue rows: the operation
column and payload shape always agree).  Only `date` and `day_tag` exist in the
dict, everything else defaults. -/
def recordOfCheckoutPayload (p : CheckoutPayload) : CheckInRecord :=
  { date := some p.date, child_name := none, event_name := none, event_id := none,
    session_label := none, session_period := none, session_id := none,
    state := none, church_location := none, camp_group := none, service := none,
    day_tag := some p.day_tag, check_in_time := none,
    check_out_time := some "", status := some "Checked-In", notes := none }

/-- One iteration of the flush loop over a fetched queue item: record the
attempt first, then dispatch inside try/except.  Returns the new state and
whether the item counted as `processed` (`true`) or `failed` (`false`). -/
def process_item (env : RemoteEnv) (st : SysState) (item : QueueRow) : SysState × Bool :=
  let st := { st with db := record_sync_attempt env.now item.id st.db }
  if item.operation = "check_in" then
    match item.payload with
    | .checkIn p =>
      match env.fail_dispatch item.id with
      | some msg => ({ st with db := update_queue_error env.now item.id msg st.db }, false)
      | none =>
        let st := { st with sheet := append_attendance_row st.sheet (recordOfCheckInPayload p) }
        let st := { st with db := mark_attendance_synced env.now p.attendance_id st.db }
        ({ st with db := mark_queue_item_synced env.now item.id st.db }, true)
    | .checkout p =>
      -- operation/payload mismatch (never created by the repository): the row
      -- built from `.get` defaults is appended, then `payload['attendance_id']`
      -- raises KeyError, caught by the generic handler.
      match env.fail_dispatch item.id with
      | some msg => ({ st with db := update_queue_error env.now item.id msg st.db }, false)
      | none =>
        let st := { st with sheet := append_attendance_row st.sheet (recordOfCheckoutPayload p) }
        ({ st with db := update_queue_error env.now item.id "attendance_id" st.db }, false)
  else if item.operation = "checkout" then
    match item.payload with
    | .checkout p =>
      match env.fail_dispatch item.id with
      | some msg => ({ st with db := update_queue_error env.now item.id msg st.db }, false)
      | none =>
        -- the returned updated-children list of perform_remote_checkout is discarded here
        let st := { st with sheet := (perform_remote_checkout p.date p.day_tag p.checkout_time st.sheet).2 }
        let st := { st with db :=
            p.attendance_ids.foldl (fun d a => mark_attendance_synced env.now a d) st.db }
        ({ st with db := mark_queue_item_synced env.now item.id st.db }, true)
    | .checkIn _ =>
      -- mismatch (never created by the repository): `payload['checkout_time']`
      -- raises KeyError before any remote call.
      ({ st with db := update_queue_error env.now item.id "checkout_time" st.db }, false)
  else
    -- unknown operation: `raise ValueError(f"Unsupported operation type: ...")`,
    -- caught by the generic handler, which only records the error text.
    ({ st with db :=
        update_queue_error env.now item.id ("Unsupported operation type: " ++ item.operation) st.db },
     false)

/-- Return summary of `process_pending_queue`; `error` is the extra key present
only when obtaining the sheets client fails upfront. -/
structure FlushSummary where
  processed : Nat
  failed : Nat
  error : Option String
  deriving DecidableEq, Repr

/-- The `for item in queue_items` loop of `process_pending_queue`, threading the
state and the `processed`/`failed` counters. -/
def flushLoop (env : RemoteEnv) (acc : SysState × Nat × Nat) (items : List QueueRow) :
    SysState × Nat × Nat :=
  items.foldl
    (fun acc item =>
      let r := process_item env acc.1 item
      (r.1, if r.2 then (acc.2.1 + 1, acc.2.2) else (acc.2.1, acc.2.2 + 1)))
    acc

/-- `process_pending_queue(client, limit)`: no-op in local mode; early return if
the client/sheet cannot be obtained (`connect_error`); otherwise fetch the
pending batch once and process each item, isolating per-item failures. -/
def process_pending_queue (useLocalDb : Bool) (env : RemoteEnv)
    (connect_error : Option String) (limit : Nat) (st : SysState) :
    SysState × FlushSummary :=
  if useLocalDb then (st, { processed := 0, failed := 0, error := none })
  else
    match connect_error with
    | some e => (st, { processed := 0, failed := 0, error := some e })
    | none =>
      let items := fetch_pending_queue limit st.db
      let out := flushLoop env (st, 0, 0) items
      (out.1, { processed := out.2.1, failed := out.2.2, error := none })

/-! ## app.py unified read path and top-level operations -/

/-- One entry of the unified attendance view built by
`get_attendance_logs_by_date`: a confirmed remote sheet record or a still
pending local row. -/
inductive UnifiedRec where
  | fromSheet (r : SheetRec)
  | fromLocal (r : AttRow)
  deriving DecidableEq, Repr

/-- The `'Child Name'` field of a unified record. -/
def UnifiedRec.childName : UnifiedRec → String
  | .fromSheet r => r.child_name
  | .fromLocal r => r.child_name

/-- The `'Status'` field of a unified record. -/
def UnifiedRec.recStatus : UnifiedRec → String
  | .fromSheet r => r.status
  | .fromLocal r => r.status

/-- `get_attendance_logs_by_date(date)`: in local mode,
`db_helper.get_logs_by_date`; in production mode the sheet records whose
`Date` matches, followed by `sync_queue.get_pending_attendance(date)`
(provenance-tagging and `setdefault` calls only decorate the dicts). -/
def get_attendance_logs_by_date (useLocalDb : Bool) (date : String) (st : SysState) :
    List UnifiedRec :=
  if useLocalDb then
    (db_get_logs_by_date date st.db).map .fromLocal
  else
    (st.sheet.filter fun r => r.date == date).map UnifiedRec.fromSheet
      ++ (get_pending_attendance (some date) st.db).map .fromLocal

/-- Result dict of `add_check_in`; keys that a branch does not set are `none`
or `false`. -/
structure CheckInResult where
  synced : Bool
  pending : Bool
  error : Option String
  duplicate : Bool
  record : Option PendingCheckInView
  deriving DecidableEq, Repr

/-- `add_check_in(date, child_name, session_label, day_tag, check_in_time, details)`:
rejects a duplicate against the unified view of the same date before any write;
in local mode inserts the plain attendance row; in production mode enqueues the
pending record and makes one best-effort direct remote write (`direct_fail`
models that attempt raising), flushing the rest of the queue on success. -/
def add_check_in (useLocalDb : Bool) (env : RemoteEnv) (uuid : String)
    (direct_fail : Option String)
    (date child_name session_label day_tag check_in_time : String)
    (details : Details) (st : SysState) : SysState × CheckInResult :=
  let camp_group := details.camp_group.getD ""
  let service_value := pyOrS details.service (pyOrS details.session_period session_label)
  let existing_records := get_attendance_logs_by_date useLocalDb date st
  if existing_records.any (fun r => r.childName == child_name && r.recStatus == "Checked-In") then
    (st, { synced := false, pending := false,
           error := some (child_name ++ " is already checked in."),
           duplicate := true, record := none })
  else if useLocalDb then
    let db' := db_add_attendance_log date child_name service_value day_tag check_in_time
      "Checked-In" details.event_id details.event_name details.session_id
      (some session_label) details.session_period details.state
      details.church_location (some camp_group) details.notes st.db
    ({ st with db := db' },
     { synced := true, pending := false, error := none, duplicate := false, record := none })
  else
    let payload_details : Details :=
      { event_id := details.event_id, event_name := details.event_name,
        session_id := details.session_id, session_label := some session_label,
        session_period := details.session_period, state := details.state,
        church_location := details.church_location, camp_group := some camp_group,
        notes := details.notes, service := some service_value }
    let queued := add_pending_check_in uuid env.now date child_name service_value
      day_tag check_in_time payload_details st.db
    let st := { st with db := queued.1 }
    match direct_fail with
    | none =>
      let record : CheckInRecord :=
        { date := some date, child_name := some child_name,
          event_name := details.event_name, event_id := details.event_id,
          session_label := some session_label, session_period := details.session_period,
          session_id := details.session_id, state := details.state,
          church_location := details.church_location, camp_group := some camp_group,
          service := some service_value, day_tag := some day_tag,
          check_in_time := some check_in_time, check_out_time := some "",
          status := some "Checked-In", notes := details.notes }
      let st := { st with sheet := append_attendance_row st.sheet record }
      let st := { st with db := mark_attendance_synced env.now queued.2.id st.db }
      let st := { st with db := mark_queue_item_synced env.now queued.2.queue_id st.db }
      let st := (process_pending_queue false env none 20 st).1
      (st, { synced := true, pending := false, error := none, duplicate := false,
             record := some queued.2 })
    | some e =>
      let st := { st with db := update_queue_error env.now queued.2.queue_id e st.db }
      (st, { synced := false, pending := true, error := some e, duplicate := false,
             record := some queued.2 })

/-- Result dict of `checkout_by_tag`. -/
structure CheckoutResult where
  children : List String
  synced : Bool
  pending : Bool
  error : Option String
  deriving DecidableEq, Repr

/-- `checkout_by_tag(date, tag, checkout_time)`: local mode delegates to
`db_helper.checkout_by_tag`; production mode enqueues the checkout and makes a
best-effort direct remote attempt — when the remote update touched no row but
the queued payload has child names, those names are returned as the result. -/
def checkout_by_tag (useLocalDb : Bool) (env : RemoteEnv) (uuid : String)
    (direct_fail : Option String) (date tag checkout_time : String)
    (st : SysState) : SysState × CheckoutResult :=
  if useLocalDb then
    let out := db_checkout_by_tag date tag checkout_time st.db
    ({ st with db := out.1 },
     { children := out.2, synced := true, pending := false, error := none })
  else
    let queued := add_pending_checkout uuid env.now date tag checkout_time st.db
    let st := { st with db := queued.1 }
    match direct_fail with
    | none =>
      let out := perform_remote_checkout date tag checkout_time st.sheet
      let st := { st with sheet := out.2 }
      let updated_children :=
        if out.1.isEmpty && !queued.2.child_names.isEmpty then queued.2.child_names
        else out.1
      let st := { st with db := mark_queue_item_synced env.now queued.2.queue_id st.db }
      let st := { st with db :=
          queued.2.attendance_ids.foldl (fun d a => mark_attendance_synced env.now a d) st.db }
      let st := (process_pending_queue false env none 20 st).1
      (st, { children := updated_children, synced := true, pending := false, error := none })
    | some e =>
      let st := { st with db := update_queue_error env.now queued.2.queue_id e st.db }
      (st, { children := queued.2.child_names, synced := false, pending := true,
             error := some e })

/-! ## Derived specification of one flush-loop iteration -/

/-- The error, if any, that the try/except body of the flush loop raises while
dispatching one queue item: an injected remote failure, a KeyError on an
operation/payload mismatch, or the `ValueError` for an unknown operation. -/
def item_error (env : RemoteEnv) (item : QueueRow) : Option String :=
  if item.operation = "check_in" then
    match item.payload with
    | .checkIn _ => env.fail_dispatch item.id
    | .checkout _ =>
      match env.fail_dispatch item.id with
      | some msg => some msg
      | none => some "attendance_id"
  else if item.operation = "checkout" then
    match item.payload with
    | .checkout _ => env.fail_dispatch item.id
    | .checkIn _ => some "checkout_time"
  else some ("Unsupported operation type: " ++ item.operation)

/-- Net effect of one flush iteration on the queue row being dispatched:
the attempt is always recorded; then either the error is stored (status left
alone) or the row is marked synced.  The dispatch decision comes from the
fetched snapshot `i`, the fields from the current row `q`. -/
def applyOutcome (env : RemoteEnv) (i q : QueueRow) : QueueRow :=
  match item_error env i with
  | some e =>
    { q with attempts := q.attempts + 1, last_attempt_at := some env.now,
             updated_at := env.now, last_error := some (truncErr e) }
  | none =>
    { q with attempts := q.attempts + 1, last_attempt_at := some env.now,
             updated_at := env.now, status := "synced", last_error := none }

/-- Effect of a whole fetched batch on one queue row: the transformation of the
unique batch item carrying the row's id, if any. -/
def applyFetched (env : RemoteEnv) (items : List QueueRow) (q : QueueRow) : QueueRow :=
  match items.find? (fun i => i.id == q.id) with
  | some i => applyOutcome env i q
  | none => q

theorem applyOutcome_id (env : RemoteEnv) (i q : QueueRow) :
    (applyOutcome env i q).id = q.id := by
  unfold applyOutcome
  cases item_error env i <;> rfl

theorem foldl_mark_att_queue (now : Nat) (ids : List Nat) (db : LocalDB) :
    (ids.foldl (fun d a => mark_attendance_synced now a d) db).sync_queue = db.sync_queue := by
  induction ids generalizing db with
  | nil => rfl
  | cons a t ih => rw [List.foldl_cons, ih]; rfl

/-- Effect of one flush iteration on the sync-queue table: exactly the rows
carrying the dispatched item's id are rewritten by `applyOutcome`. -/
theorem process_item_queue (env : RemoteEnv) (st : SysState) (i : QueueRow) :
    (process_item env st i).1.db.sync_queue =
      st.db.sync_queue.map (fun q => if q.id = i.id then applyOutcome env i q else q) := by
  unfold process_item
  by_cases h1 : i.operation = "check_in"
  · simp only [h1, if_true]
    cases hp : i.payload with
    | checkIn p =>
      cases hf : env.fail_dispatch i.id with
      | some msg =>
        simp only [update_queue_error, record_sync_attempt, List.map_map]
        refine List.map_congr_left fun q _ => ?_
        by_cases hq : q.id = i.id <;>
          simp [hq, applyOutcome, item_error, h1, hp, hf, Function.comp]
      | none =>
        simp only [mark_queue_item_synced, mark_attendance_synced,
          record_sync_attempt, List.map_map]
        refine List.map_congr_left fun q _ => ?_
        by_cases hq : q.id = i.id <;>
          simp [hq, applyOutcome, item_error, h1, hp, hf, Function.comp]
    | checkout p =>
      cases hf : env.fail_dispatch i.id with
      | some msg =>
        simp only [update_queue_error, record_sync_attempt, List.map_map]
        refine List.map_congr_left fun q _ => ?_
        by_cases hq : q.id = i.id <;>
          simp [hq, applyOutcome, item_error, h1, hp, hf, Function.comp]
      | none =>
        simp only [update_queue_error, record_sync_attempt, List.map_map]
        refine List.map_congr_left fun q _ => ?_
        by_cases hq : q.id = i.id <;>
          simp [hq, applyOutcome, item_error, h1, hp, hf, Function.comp]
  · by_cases h2 : i.operation = "checkout"
    · simp only [h1, h2, if_false, if_true]
      cases hp : i.payload with
      | checkIn p =>
        simp only [update_queue_error, record_sync_attempt, List.map_map]
        refine List.map_congr_left fun q _ => ?_
        by_cases hq : q.id = i.id <;>
          simp [hq, applyOutcome, item_error, h1, h2, hp, Function.comp]
      | checkout p =>
        cases hf : env.fail_dispatch i.id with
        | some msg =>
          simp only [update_queue_error, record_sync_attempt, List.map_map]
          refine List.map_congr_left fun q _ => ?_
          by_cases hq : q.id = i.id <;>
            simp [hq, applyOutcome, item_error, h1, h2, hp, hf, Function.comp]
        | none =>
          simp only [mark_queue_item_synced, record_sync_attempt]
          rw [foldl_mark_att_queue]
          simp only [record_sync_attempt, List.map_map]
          refine List.map_congr_left fun q _ => ?_
          by_cases hq : q.id = i.id <;>
            simp [hq, applyOutcome, item_error, h1, h2, hp, hf, Function.comp]
    · simp only [h1, h2, if_false]
      simp only [update_queue_error, record_sync_attempt, List.map_map]
      refine List.map_congr_left fun q _ => ?_
      by_cases hq : q.id = i.id <;>
        simp [hq, applyOutcome, item_error, h1, h2, Function.comp]

/-- The processed/failed classification of one flush iteration is decided by
`item_error` alone. -/
theorem process_item_flag (env : RemoteEnv) (st : SysState) (i : QueueRow) :
    (process_item env st i).2 = (item_error env i).isNone := by
  unfold process_item item_error
  by_cases h1 : i.operation = "check_in"
  · simp only [h1, if_true]
    cases hp : i.payload <;> cases hf : env.fail_dispatch i.id <;> simp [hf]
  · by_cases h2 : i.operation = "checkout"
    · simp only [h1, h2, if_false, if_true]
      cases hp : i.payload with
      | checkIn p => simp
      | checkout p => cases hf : env.fail_dispatch i.id <;> simp [hf]
    · simp [h1, h2]

theorem flushLoop_nil (env : RemoteEnv) (acc : SysState × Nat × Nat) :
    flushLoop env acc [] = acc := rfl

theorem flushLoop_cons (env : RemoteEnv) (acc : SysState × Nat × Nat)
    (i : QueueRow) (rest : List QueueRow) :
    flushLoop env acc (i :: rest)
      = flushLoop env
          ((process_item env acc.1 i).1,
           if (process_item env acc.1 i).2 then (acc.2.1 + 1, acc.2.2)
           else (acc.2.1, acc.2.2 + 1)) rest := rfl

/-- Processing a batch with pairwise-distinct ids rewrites exactly the rows
whose id occurs in the batch, each by the outcome of its own dispatch. -/
theorem flushLoop_queue (env : RemoteEnv) :
    ∀ (items : List QueueRow), (items.map (·.id)).Nodup →
      ∀ (st : SysState) (pf : Nat × Nat),
        (flushLoop env (st, pf) items).1.db.sync_queue
          = st.db.sync_queue.map (applyFetched env items) := by
  intro items
  induction items with
  | nil =>
    intro _ st pf
    rw [flushLoop_nil]
    exact ((List.map_congr_left fun q _ => rfl).trans (List.map_id _)).symm
  | cons i rest ih =>
    intro hnd st pf
    obtain ⟨hne, hndr⟩ : (∀ x ∈ rest, ¬x.id = i.id) ∧ (rest.map (·.id)).Nodup := by
      simpa using hnd
    rw [flushLoop_cons, ih hndr, process_item_queue, List.map_map]
    refine List.map_congr_left fun q _ => ?_
    by_cases hq : q.id = i.id
    · simp only [Function.comp, if_pos hq]
      have hfind : rest.find? (fun j => j.id == (applyOutcome env i q).id) = none := by
        refine List.find?_eq_none.mpr fun j hj => ?_
        simp [applyOutcome_id, hq, hne j hj]
      have hhead : (i.id == q.id) = true := by simp [hq]
      simp [applyFetched, hfind, List.find?_cons, hhead]
    · have hhead : (i.id == q.id) = false :=
        beq_eq_false_iff_ne.mpr fun h => hq h.symm
      simp [Function.comp, if_neg hq, applyFetched, List.find?_cons, hhead]

/-- The returned counters of a flush batch: `processed` counts the items whose
dispatch raised nothing, `failed` the rest. -/
theorem flushLoop_counts (env : RemoteEnv) :
    ∀ (items : List QueueRow) (st : SysState) (pf : Nat × Nat),
      (flushLoop env (st, pf) items).2
        = (pf.1 + (items.filter fun i => (item_error env i).isNone).length,
           pf.2 + (items.filter fun i => (item_error env i).isSome).length) := by
  intro items
  induction items with
  | nil => intro st pf; simp [flushLoop_nil]
  | cons i rest ih =>
    intro st pf
    rw [flushLoop_cons]
    cases h : item_error env i with
    | none =>
      have hflag : (process_item env st i).2 = true := by
        rw [process_item_flag, h]; rfl
      rw [hflag]
      simp only [if_true, ih]
      simp [List.filter_cons, h]
      omega
    | some e =>
      have hflag : (process_item env st i).2 = false := by
        rw [process_item_flag, h]; rfl
      rw [hflag]
      simp only [Bool.false_eq_true, if_false, ih]
      simp [List.filter_cons, h]
      omega

/-! ## Facts about the fetched batch -/

theorem mem_fetch_pending {limit : Nat} {db : LocalDB} {q : QueueRow}
    (h : q ∈ fetch_pending_queue limit db) : q ∈ db.sync_queue := by
  unfold fetch_pending_queue at h
  exact List.mem_of_mem_filter ((List.perm_insertionSort createdLe _).mem_iff.mp
    (List.take_subset _ _ h))

theorem fetch_pending_status {limit : Nat} {db : LocalDB} {q : QueueRow}
    (h : q ∈ fetch_pending_queue limit db) : q.status = "pending" := by
  unfold fetch_pending_queue at h
  have h2 := (List.perm_insertionSort createdLe _).mem_iff.mp (List.take_subset _ _ h)
  simpa using List.of_mem_filter h2

theorem fetch_pending_ids_nodup {db : LocalDB}
    (hnd : (db.sync_queue.map (·.id)).Nodup) (limit : Nat) :
    ((fetch_pending_queue limit db).map (·.id)).Nodup := by
  unfold fetch_pending_queue
  have h1 : ((db.sync_queue.filter fun q => q.status == "pending").map (·.id)).Nodup :=
    hnd.sublist ((List.filter_sublist _).map _)
  have h2 : (((db.sync_queue.filter fun q => q.status == "pending").insertionSort
      createdLe).map (·.id)).Nodup :=
    (((List.perm_insertionSort createdLe _).map (·.id)).nodup_iff).mpr h1
  rw [List.map_take]
  exact h2.sublist (List.take_sublist _ _)

theorem mem_queue_of_id_unique {db : LocalDB}
    (hnd : (db.sync_queue.map (·.id)).Nodup) {a b : QueueRow}
    (ha : a ∈ db.sync_queue) (hb : b ∈ db.sync_queue) (hab : a.id = b.id) : a = b :=
  List.inj_on_of_nodup_map hnd ha hb hab

/-! ## Claim theorems -/

/-- C2: flush processes exactly the `status='pending'` queue items, in ascending
`created_at` order, at most `limit` of them; when the limit does not truncate,
the batch is a permutation of all pending items; items whose status is not
pending (synced or failed) are never selected and survive a flush unchanged, so
re-running flush over an already-synced item is a no-op on it. -/
theorem flush_selects_only_pending (env : RemoteEnv) (limit : Nat) (st : SysState)
    (hnd : (st.db.sync_queue.map (·.id)).Nodup) :
    (∀ q ∈ fetch_pending_queue limit st.db, q.status = "pending") ∧
    List.Sorted createdLe (fetch_pending_queue limit st.db) ∧
    (fetch_pending_queue limit st.db).length ≤ limit ∧
    (∀ q ∈ fetch_pending_queue limit st.db, q ∈ st.db.sync_queue) ∧
    ((st.db.sync_queue.filter fun q => q.status == "pending").length ≤ limit →
      (fetch_pending_queue limit st.db).Perm
        (st.db.sync_queue.filter fun q => q.status == "pending")) ∧
    (∀ q ∈ st.db.sync_queue, q.status ≠ "pending" →
      q ∈ (process_pending_queue false env none limit st).1.db.sync_queue) := by
  refine ⟨fun q hq => fetch_pending_status hq, ?_, ?_, fun q hq => mem_fetch_pending hq, ?_, ?_⟩
  · exact List.Pairwise.sublist (List.take_sublist _ _)
      (List.sorted_insertionSort createdLe _)
  · exact List.length_take_le _ _
  · intro hlen
    unfold fetch_pending_queue
    have hslen : ((st.db.sync_queue.filter fun q => q.status == "pending").insertionSort
        createdLe).length ≤ limit := by
      rwa [(List.perm_insertionSort createdLe _).length_eq]
    rw [List.take_of_length_le hslen]
    exact List.perm_insertionSort createdLe _
  · intro q hq hqs
    simp only [process_pending_queue, if_neg (Bool.false_ne_true)]
    rw [flushLoop_queue env _ (fetch_pending_ids_nodup hnd limit) st (0, 0)]
    have happ : applyFetched env (fetch_pending_queue limit st.db) q = q := by
      unfold applyFetched
      cases hf : (fetch_pending_queue limit st.db).find? (fun i => i.id == q.id) with
      | none => rfl
      | some i =>
        exfalso
        have hi : i ∈ fetch_pending_queue limit st.db := List.mem_of_find?_eq_some hf
        have hid : i.id = q.id := by simpa using List.find?_some hf
        have : i = q :=
          mem_queue_of_id_unique hnd (mem_fetch_pending hi) hq hid
        exact hqs (this ▸ fetch_pending_status hi)
    exact happ ▸ List.mem_map_of_mem _ hq

theorem applyFetched_mem {env : RemoteEnv} {db : LocalDB} {limit : Nat}
    (hnd : (db.sync_queue.map (·.id)).Nodup) {i : QueueRow}
    (hi : i ∈ fetch_pending_queue limit db) :
    applyFetched env (fetch_pending_queue limit db) i = applyOutcome env i i := by
  unfold applyFetched
  cases hf : (fetch_pending_queue limit db).find? (fun j => j.id == i.id) with
  | none =>
    have := List.find?_eq_none.mp hf i hi
    simp at this
  | some j =>
    have hj : j ∈ fetch_pending_queue limit db := List.mem_of_find?_eq_some hf
    have hid : j.id = i.id := by simpa using List.find?_some hf
    rw [mem_queue_of_id_unique hnd (mem_fetch_pending hj) (mem_fetch_pending hi) hid]

theorem flush_final_queue (env : RemoteEnv) (limit : Nat) (st : SysState)
    (hnd : (st.db.sync_queue.map (·.id)).Nodup) :
    (process_pending_queue false env none limit st).1.db.sync_queue
      = st.db.sync_queue.map (applyFetched env (fetch_pending_queue limit st.db)) := by
  simp only [process_pending_queue, if_neg (Bool.false_ne_true)]
  exact flushLoop_queue env _ (fetch_pending_ids_nodup hnd limit) st (0, 0)

/-- C3: per-item failure isolation of flush.  The counters classify every item
of the fetched batch by whether its dispatch raised; a failing item keeps its
`pending` status and gets the truncated error text stored in `last_error`,
while the other items of the same batch are still dispatched and marked
synced. -/
theorem flush_partial_failure_isolation (env : RemoteEnv) (limit : Nat) (st : SysState)
    (hnd : (st.db.sync_queue.map (·.id)).Nodup) :
    (process_pending_queue false env none limit st).2.processed
        = ((fetch_pending_queue limit st.db).filter fun i => (item_error env i).isNone).length ∧
    (process_pending_queue false env none limit st).2.failed
        = ((fetch_pending_queue limit st.db).filter fun i => (item_error env i).isSome).length ∧
    ∀ i ∈ fetch_pending_queue limit st.db,
      i.status = "pending" ∧
      (∀ e, item_error env i = some e →
        { i with attempts := i.attempts + 1, last_attempt_at := some env.now,
                 updated_at := env.now, last_error := some (truncErr e) }
          ∈ (process_pending_queue false env none limit st).1.db.sync_queue) ∧
      (item_error env i = none →
        { i with attempts := i.attempts + 1, last_attempt_at := some env.now,
                 updated_at := env.now, status := "synced", last_error := none }
          ∈ (process_pending_queue false env none limit st).1.db.sync_queue) := by
  have hcounts := flushLoop_counts env (fetch_pending_queue limit st.db) st (0, 0)
  have hmain : (process_pending_queue false env none limit st).2
      = { processed := (flushLoop env (st, 0, 0) (fetch_pending_queue limit st.db)).2.1,
          failed := (flushLoop env (st, 0, 0) (fetch_pending_queue limit st.db)).2.2,
          error := none } := by
    simp only [process_pending_queue, if_neg (Bool.false_ne_true)]
  refine ⟨?_, ?_, ?_⟩
  · rw [hmain, hcounts]; simp
  · rw [hmain, hcounts]; simp
  · intro i hi
    refine ⟨fetch_pending_status hi, ?_, ?_⟩
    · intro e he
      rw [flush_final_queue env limit st hnd]
      have := List.mem_map_of_mem (applyFetched env (fetch_pending_queue limit st.db))
        (mem_fetch_pending hi)
      rwa [applyFetched_mem hnd hi, applyOutcome, he] at this
    · intro he
      rw [flush_final_queue env limit st hnd]
      have := List.mem_map_of_mem (applyFetched env (fetch_pending_queue limit st.db))
        (mem_fetch_pending hi)
      rwa [applyFetched_mem hnd hi, applyOutcome, he] at this

/-- C8: every fetched queue item has its attempt recorded by flush — attempts
is incremented by exactly one and `last_attempt_at` is stamped — whether or not
the dispatch of that item subsequently raised (`process_item` applies
`record_sync_attempt` before the try/except dispatch block, mirroring the
source order). -/
theorem flush_records_attempt_always (env : RemoteEnv) (limit : Nat) (st : SysState)
    (hnd : (st.db.sync_queue.map (·.id)).Nodup) :
    ∀ i ∈ fetch_pending_queue limit st.db,
      ∃ q' ∈ (process_pending_queue false env none limit st).1.db.sync_queue,
        q'.id = i.id ∧ q'.attempts = i.attempts + 1 ∧ q'.last_attempt_at = some env.now := by
  intro i hi
  refine ⟨applyOutcome env i i, ?_, applyOutcome_id env i i, ?_, ?_⟩
  · rw [flush_final_queue env limit st hnd]
    have := List.mem_map_of_mem (applyFetched env (fetch_pending_queue limit st.db))
      (mem_fetch_pending hi)
    rwa [applyFetched_mem hnd hi] at this
  · unfold applyOutcome; cases item_error env i <;> rfl
  · unfold applyOutcome; cases item_error env i <;> rfl

/-- C1: a check-in request for a child who already appears in the unified
attendance view of that date with status Checked-In is rejected with the
duplicate error before any write: the returned dict is the duplicate-error
dict and the whole state (local attendance table, sync queue, and remote
sheet) is unchanged.  Holds in both backend modes, since the duplicate scan
runs before the mode branch. -/
theorem add_check_in_rejects_duplicate (useLocalDb : Bool) (env : RemoteEnv)
    (uuid : String) (direct_fail : Option String)
    (date child_name session_label day_tag check_in_time : String)
    (details : Details) (st : SysState)
    (hdup : ∃ r ∈ get_attendance_logs_by_date useLocalDb date st,
      r.childName = child_name ∧ r.recStatus = "Checked-In") :
    add_check_in useLocalDb env uuid direct_fail date child_name session_label day_tag
        check_in_time details st
      = (st, { synced := false, pending := false,
               error := some (child_name ++ " is already checked in."),
               duplicate := true, record := none }) := by
  unfold add_check_in
  have hany : (get_attendance_logs_by_date useLocalDb date st).any
      (fun r => r.childName == child_name && r.recStatus == "Checked-In") = true := by
    obtain ⟨r, hr, h1, h2⟩ := hdup
    exact List.any_eq_true.mpr ⟨r, hr, by simp [h1, h2]⟩
  simp [hany]

/-- Environment used by the concrete scenarios: clock at 9, no remote failure. -/
def envW : RemoteEnv := { now := 9, fail_dispatch := fun _ => none }

/-- A pending queue item whose operation column is neither check_in nor
checkout. -/
def qBad : QueueRow :=
  { id := 1, record_type := "attendance_log", record_id := none, operation := "frobnicate",
    payload := Payload.checkout
      { attendance_ids := [], date := "2024-06-01", day_tag := "T7",
        checkout_time := "05:00 PM", child_names := [] },
    status := "pending", attempts := 0, last_error := none, last_attempt_at := none,
    sync_uuid := "u-bad", created_at := 1, updated_at := 1 }

/-- State holding only the unknown-operation queue item. -/
def stBad : SysState :=
  { db := { attendance_log := [], sync_queue := [qBad], next_att_id := 1, next_queue_id := 2 },
    sheet := [] }

/-- C4 counterexample: flushing a queue item with unknown operation
`"frobnicate"` does NOT mark it failed — its status stays `'pending'` with the
error recorded in `last_error`, the very next `fetch_pending_queue` selects it
again, and a second flush re-processes it (attempts reaches 2) without any
administrative reset.  This refutes the claim that such an item is marked
failed and excluded from subsequent flushes until `reset_failed_queue_items`. -/
theorem flush_unknown_op_cex :
    ((process_pending_queue false envW none 20 stBad).1.db.sync_queue.map
        fun q => (q.status, q.last_error))
      = [("pending", some "Unsupported operation type: frobnicate")] ∧
    fetch_pending_queue 20 (process_pending_queue false envW none 20 stBad).1.db
      = [{ qBad with
             attempts := 1, last_attempt_at := some 9, updated_at := 9,
             last_error := some "Unsupported operation type: frobnicate" }] ∧
    ((process_pending_queue false envW none 20
        (process_pending_queue false envW none 20 stBad).1).1.db.sync_queue.map
        fun q => (q.status, q.attempts))
      = [("pending", 2)] := by
  decide

/-- C4 amended: for a fetched queue item whose operation is neither
`'check_in'` nor `'checkout'`, flush records the `Unsupported operation type`
error (truncated) on the item via `update_queue_error`, leaves its status
`'pending'`, and the item therefore remains among the pending rows that every
subsequent flush selects from — it is never marked `'failed'` by the flush
path, so no administrative reset is needed for it to be retried. -/
theorem flush_unknown_op_retained_pending (env : RemoteEnv) (limit : Nat) (st : SysState)
    (hnd : (st.db.sync_queue.map (·.id)).Nodup) :
    ∀ i ∈ fetch_pending_queue limit st.db,
      i.operation ≠ "check_in" → i.operation ≠ "checkout" →
      item_error env i = some ("Unsupported operation type: " ++ i.operation) ∧
      { i with attempts := i.attempts + 1, last_attempt_at := some env.now,
               updated_at := env.now,
               last_error := some (truncErr ("Unsupported operation type: " ++ i.operation)) }
          ∈ (process_pending_queue false env none limit st).1.db.sync_queue ∧
      ({ i with attempts := i.attempts + 1, last_attempt_at := some env.now,
                updated_at := env.now,
                last_error := some (truncErr ("Unsupported operation type: " ++ i.operation)) }
        : QueueRow).status = "pending" ∧
      { i with attempts := i.attempts + 1, last_attempt_at := some env.now,
               updated_at := env.now,
               last_error := some (truncErr ("Unsupported operation type: " ++ i.operation)) }
          ∈ ((process_pending_queue false env none limit st).1.db.sync_queue.filter
              fun q => q.status == "pending") := by
  intro i hi h1 h2
  have herr : item_error env i = some ("Unsupported operation type: " ++ i.operation) := by
    unfold item_error
    simp [h1, h2]
  have hmem : { i with
                 attempts := i.attempts + 1, last_attempt_at := some env.now,
                 updated_at := env.now,
                 last_error := some (truncErr ("Unsupported operation type: " ++ i.operation)) }
      ∈ (process_pending_queue false env none limit st).1.db.sync_queue := by
    rw [flush_final_queue env limit st hnd]
    have := List.mem_map_of_mem (applyFetched env (fetch_pending_queue limit st.db))
      (mem_fetch_pending hi)
    rwa [applyFetched_mem hnd hi, applyOutcome, herr] at this
  have hst : ({ i with
                 attempts := i.attempts + 1, last_attempt_at := some env.now,
                 updated_at := env.now,
                 last_error := some (truncErr ("Unsupported operation type: " ++ i.operation)) }
      : QueueRow).status = "pending" := by
    have h := fetch_pending_status hi
    exact h
  refine ⟨herr, hmem, hst, List.mem_filter.mpr ⟨hmem, by simp [fetch_pending_status hi]⟩⟩

/-- Pointwise attempts-monotonicity lifts to the table map. -/
theorem attempts_le_map (l : List QueueRow) (f : QueueRow → QueueRow)
    (h : ∀ q, q.attempts ≤ (f q).attempts) :
    List.Forall₂ (fun a b => a.attempts ≤ b.attempts) l (l.map f) := by
  induction l with
  | nil => exact .nil
  | cons a t ih => exact .cons (h a) ih

/-- C9: the attempts counter of every queue row is monotone under each
sync-queue operation — `record_sync_attempt` increases it by one on the
targeted row, and marking synced, marking failed, updating the error text, and
resetting failed items all leave it unchanged; none ever decreases it. -/
theorem queue_attempts_monotone (db : LocalDB) (now queue_id : Nat) (msg : String) :
    List.Forall₂ (fun a b => a.attempts ≤ b.attempts) db.sync_queue
      (record_sync_attempt now queue_id db).sync_queue ∧
    List.Forall₂ (fun a b => a.attempts ≤ b.attempts) db.sync_queue
      (mark_queue_item_synced now queue_id db).sync_queue ∧
    List.Forall₂ (fun a b => a.attempts ≤ b.attempts) db.sync_queue
      (mark_queue_item_failed now queue_id msg db).sync_queue ∧
    List.Forall₂ (fun a b => a.attempts ≤ b.attempts) db.sync_queue
      (update_queue_error now queue_id msg db).sync_queue ∧
    List.Forall₂ (fun a b => a.attempts ≤ b.attempts) db.sync_queue
      (reset_failed_queue_items now db).sync_queue := by
  refine ⟨attempts_le_map _ _ fun q => ?_, attempts_le_map _ _ fun q => ?_,
    attempts_le_map _ _ fun q => ?_, attempts_le_map _ _ fun q => ?_,
    attempts_le_map _ _ fun q => ?_⟩
  · by_cases h : q.id = queue_id <;> simp [h, Nat.le_succ]
  · by_cases h : q.id = queue_id <;> simp [h]
  · by_cases h : q.id = queue_id <;> simp [h]
  · by_cases h : q.id = queue_id <;> simp [h]
  · by_cases h : q.status = "failed" <;> simp [h]

/-- A local attendance row already stamped checked out, awaiting sync. -/
def att5 : AttRow :=
  { id := 1, date := "2024-06-01", child_name := "Ada", service := "Morning",
    day_tag := "T7", check_in_time := "08:00 AM", check_out_time := "05:00 PM",
    status := "Checked-Out", event_id := none, event_name := none, session_id := none,
    session_label := some "Morning", session_period := none, state := none,
    church_location := none, camp_group := some "", notes := none,
    sync_status := "pending", synced_at := none, sync_uuid := some "a1" }

/-- A pending checkout queue item whose payload carries the given name list. -/
def q5 (names : List String) : QueueRow :=
  { id := 1, record_type := "attendance_log", record_id := none, operation := "checkout",
    payload := Payload.checkout
      { attendance_ids := [1], date := "2024-06-01", day_tag := "T7",
        checkout_time := "05:00 PM", child_names := names },
    status := "pending", attempts := 0, last_error := none, last_attempt_at := none,
    sync_uuid := "u5", created_at := 1, updated_at := 1 }

/-- State with one pending checkout item and an empty remote sheet, so the
remote replay updates zero rows. -/
def st5 (names : List String) : SysState :=
  { db := { attendance_log := [att5], sync_queue := [q5 names],
            next_att_id := 2, next_queue_id := 2 },
    sheet := [] }

/-- C5 counterexample: when the flush loop replays a checkout queue item and
the remote backend reports zero rows updated while the payload carries the
non-empty name list `["Ada"]`, the executor does NOT use that name list as any
result: the flush outcome (summary, sheet, attendance table, and every
non-payload queue column) is identical to the run on the same state with an
empty name list, and the item is simply marked synced.  The fallback the claim
describes happens only in the direct path `checkout_by_tag`, not in the flush
loop, which discards the return value of `perform_remote_checkout`. -/
theorem flush_checkout_ignores_names_cex :
    (process_pending_queue false envW none 20 (st5 ["Ada"])).2
      = { processed := 1, failed := 0, error := none } ∧
    (process_pending_queue false envW none 20 (st5 ["Ada"])).1.sheet = [] ∧
    (process_pending_queue false envW none 20 (st5 ["Ada"])).1.sheet
      = (process_pending_queue false envW none 20 (st5 [])).1.sheet ∧
    (process_pending_queue false envW none 20 (st5 ["Ada"])).1.db.attendance_log
      = (process_pending_queue false envW none 20 (st5 [])).1.db.attendance_log ∧
    (process_pending_queue false envW none 20 (st5 ["Ada"])).2
      = (process_pending_queue false envW none 20 (st5 [])).2 ∧
    ((process_pending_queue false envW none 20 (st5 ["Ada"])).1.db.sync_queue.map
        fun q => (q.id, q.status, q.attempts, q.last_error, q.last_attempt_at))
      = ((process_pending_queue false envW none 20 (st5 [])).1.db.sync_queue.map
        fun q => (q.id, q.status, q.attempts, q.last_error, q.last_attempt_at)) ∧
    ((process_pending_queue false envW none 20 (st5 ["Ada"])).1.db.sync_queue.map
        fun q => q.status) = ["synced"] := by
  decide

/-- C5 amended: the payload-name fallback lives in the immediate dispatch path
`checkout_by_tag`: when the direct remote checkout attempt reports zero updated
rows while the just-enqueued payload's child-name list is non-empty, the
returned checkout result is exactly that name list (the remote state is assumed
to already reflect the checkout), and the call still reports success. -/
theorem checkout_by_tag_uses_payload_names (env : RemoteEnv) (uuid : String)
    (date tag checkout_time : String) (st : SysState)
    (hremote : (perform_remote_checkout date tag checkout_time st.sheet).1 = [])
    (hnames : (add_pending_checkout uuid env.now date tag checkout_time st.db).2.child_names ≠ []) :
    (checkout_by_tag false env uuid none date tag checkout_time st).2.children
      = (add_pending_checkout uuid env.now date tag checkout_time st.db).2.child_names ∧
    (checkout_by_tag false env uuid none date tag checkout_time st).2.synced = true := by
  unfold checkout_by_tag
  simp only [Bool.false_eq_true, if_false]
  have hsheet : (add_pending_checkout uuid env.now date tag checkout_time st.db, st.sheet).2
      = st.sheet := rfl
  constructor
  · simp [hremote, List.isEmpty_iff, hnames]
  · simp [hremote, List.isEmpty_iff, hnames]

/-- C7: enqueue checkout stamps every row matching (date, tag, Checked-In) —
with no condition on its sync state, so previously synced rows are re-opened —
as Checked-Out with the given time and `sync_status='pending'`, leaves every
other row unchanged, returns exactly the matched ids and names, and appends
exactly one checkout queue item whose payload lists exactly those ids and
names; with no match the returned lists are empty and the queue item is still
created. -/
theorem add_pending_checkout_effect (uuid : String) (now : Nat)
    (date day_tag checkout_time : String) (db : LocalDB)
    (hnd : (db.attendance_log.map (·.id)).Nodup) :
    (add_pending_checkout uuid now date day_tag checkout_time db).2.attendance_ids
      = (db.attendance_log.filter (checkoutMatch date day_tag)).map (·.id) ∧
    (add_pending_checkout uuid now date day_tag checkout_time db).2.child_names
      = (db.attendance_log.filter (checkoutMatch date day_tag)).map (·.child_name) ∧
    (add_pending_checkout uuid now date day_tag checkout_time db).1.attendance_log
      = db.attendance_log.map (fun r =>
          if checkoutMatch date day_tag r then
            { r with check_out_time := checkout_time, status := "Checked-Out",
                     sync_status := "pending", synced_at := none }
          else r) ∧
    (∃ q, (add_pending_checkout uuid now date day_tag checkout_time db).1.sync_queue
        = db.sync_queue ++ [q] ∧
      q.operation = "checkout" ∧ q.status = "pending" ∧ q.attempts = 0 ∧
      q.payload = Payload.checkout
        { attendance_ids := (db.attendance_log.filter (checkoutMatch date day_tag)).map (·.id),
          date := date, day_tag := day_tag, checkout_time := checkout_time,
          child_names := (db.attendance_log.filter (checkoutMatch date day_tag)).map
            (·.child_name) }) ∧
    (db.attendance_log.filter (checkoutMatch date day_tag) = [] →
      (add_pending_checkout uuid now date day_tag checkout_time db).2.attendance_ids = [] ∧
      (add_pending_checkout uuid now date day_tag checkout_time db).2.child_names = []) := by
  refine ⟨rfl, rfl, ?_, ⟨_, rfl, rfl, rfl, rfl, rfl⟩, fun hm => by simp [add_pending_checkout, hm]⟩
  show (if ((db.attendance_log.filter (checkoutMatch date day_tag)).map (·.id)).isEmpty
      then db.attendance_log
      else db.attendance_log.map fun r =>
        if ((db.attendance_log.filter (checkoutMatch date day_tag)).map (·.id)).contains r.id
        then { r with check_out_time := checkout_time, status := "Checked-Out",
                      sync_status := "pending", synced_at := none }
        else r) = _
  by_cases hm : db.attendance_log.filter (checkoutMatch date day_tag) = []
  · rw [if_pos (by simp [hm])]
    refine ((List.map_congr_left fun r hr => ?_).trans (List.map_id _)).symm
    have hnotm : checkoutMatch date day_tag r = false := by
      by_contra hc
      have : r ∈ db.attendance_log.filter (checkoutMatch date day_tag) :=
        List.mem_filter.mpr ⟨hr, by simpa using hc⟩
      simp [hm] at this
    simp [hnotm]
  · have hne : ¬(((db.attendance_log.filter (checkoutMatch date day_tag)).map
        (·.id)).isEmpty = true) := by
      rw [List.isEmpty_iff, List.map_eq_nil_iff]
      exact hm
    rw [if_neg hne]
    refine List.map_congr_left fun r hr => ?_
    by_cases hc : checkoutMatch date day_tag r = true
    · have hidmem : r.id ∈ (db.attendance_log.filter (checkoutMatch date day_tag)).map (·.id) :=
        List.mem_map_of_mem _ (List.mem_filter.mpr ⟨hr, hc⟩)
      simp [hc, hidmem]
    · have hidnot : r.id ∉ (db.attendance_log.filter (checkoutMatch date day_tag)).map (·.id) := by
        intro hmem
        obtain ⟨m, hmm, hmid⟩ := List.mem_map.mp hmem
        have hmlog : m ∈ db.attendance_log := List.mem_of_mem_filter hmm
        have : m = r := List.inj_on_of_nodup_map hnd hmlog hr hmid
        exact hc (by simpa [this] using List.of_mem_filter hmm)
      simp [hc, hidnot]

/-- C10: in local-only mode an accepted check-in touches neither the sync queue
nor the sheet and performs no sync bookkeeping: exactly one attendance row is
appended through `db_helper.add_attendance_log`, whose INSERT names no sync
column, so the row takes the schema defaults `sync_status='synced'`,
`synced_at=NULL`, `sync_uuid=NULL` — and consequently the unsynced read path
`get_pending_attendance` (which keeps only rows with `sync_status != 'synced'`)
returns exactly what it returned before, for any date filter. -/
theorem local_check_in_no_sync_bookkeeping (env : RemoteEnv) (uuid : String)
    (direct_fail : Option String)
    (date child_name session_label day_tag check_in_time : String)
    (details : Details) (st : SysState)
    (hnodup : ∀ r ∈ get_attendance_logs_by_date true date st,
      ¬(r.childName = child_name ∧ r.recStatus = "Checked-In")) :
    (add_check_in true env uuid direct_fail date child_name session_label day_tag
        check_in_time details st).2
      = { synced := true, pending := false, error := none, duplicate := false,
          record := none } ∧
    (add_check_in true env uuid direct_fail date child_name session_label day_tag
        check_in_time details st).1.sheet = st.sheet ∧
    (add_check_in true env uuid direct_fail date child_name session_label day_tag
        check_in_time details st).1.db.sync_queue = st.db.sync_queue ∧
    (∃ r, (add_check_in true env uuid direct_fail date child_name session_label day_tag
        check_in_time details st).1.db.attendance_log = st.db.attendance_log ++ [r] ∧
      r.sync_status = "synced" ∧ r.synced_at = none ∧ r.sync_uuid = none) ∧
    (∀ d, get_pending_attendance d
        (add_check_in true env uuid direct_fail date child_name session_label day_tag
          check_in_time details st).1.db
      = get_pending_attendance d st.db) := by
  have hany : (get_attendance_logs_by_date true date st).any
      (fun r => r.childName == child_name && r.recStatus == "Checked-In") = false := by
    rw [List.any_eq_false]
    intro r hr
    have := hnodup r hr
    simp only [Bool.not_eq_true, Bool.and_eq_true, beq_iff_eq]
    intro hc
    exact this ⟨hc.1, hc.2⟩
  refine ⟨?_, ?_, ?_, ?_, ?_⟩
  · unfold add_check_in
    simp [hany]
  · unfold add_check_in
    simp [hany]
  · unfold add_check_in
    simp [hany, db_add_attendance_log]
  · unfold add_check_in
    simp only [hany, Bool.false_eq_true, if_false, if_true]
    exact ⟨_, rfl, rfl, rfl, rfl⟩
  · intro d
    unfold add_check_in
    simp only [hany, Bool.false_eq_true, if_false, if_true]
    show get_pending_attendance d (db_add_attendance_log _ _ _ _ _ _ _ _ _ _ _ _ _ _ _ st.db)
      = get_pending_attendance d st.db
    unfold get_pending_attendance db_add_attendance_log
    rw [List.filter_append]
    simp

/-! ## Concrete scenario fixtures -/

/-- A `details` dict carrying no metadata. -/
def detNone : Details :=
  { event_id := none, event_name := none, session_id := none, session_label := none,
    session_period := none, state := none, church_location := none, camp_group := none,
    notes := none, service := none }

/-- A remote sheet record for Ada, currently checked in. -/
def shAda : SheetRec :=
  { date := "2024-06-01", child_name := "Ada", event_name := "", event_id := "",
    session_label := "Morning", session_period := "", session_id := "", state := "",
    church_location := "", camp_group := "", service := "Morning", day_tag := "T7",
    check_in_time := "08:00 AM", check_out_time := "", status := "Checked-In", notes := "" }

/-- Production-mode state whose unified view already shows Ada checked in. -/
def stDup : SysState :=
  { db := { attendance_log := [], sync_queue := [], next_att_id := 1, next_queue_id := 1 },
    sheet := [shAda] }

/-- Check-in payload fixture. -/
def mkInPayload (aid : Nat) (nm u : String) : CheckInPayload :=
  { attendance_id := aid, date := "2024-06-01", child_name := nm, service := "Morning",
    day_tag := "T7", check_in_time := "08:00 AM", sync_uuid := u,
    event_id := none, event_name := none, session_id := none, session_label := "Morning",
    session_period := none, state := none, church_location := none, camp_group := "",
    notes := none }

/-- Pending check-in queue row fixture. -/
def mkQIn (qid aid : Nat) (nm u : String) (t : Nat) : QueueRow :=
  { id := qid, record_type := "attendance_log", record_id := some aid,
    operation := "check_in", payload := Payload.checkIn (mkInPayload aid nm u),
    status := "pending", attempts := 0, last_error := none, last_attempt_at := none,
    sync_uuid := u, created_at := t, updated_at := t }

/-- Pending local attendance row fixture. -/
def mkAtt (aid : Nat) (nm u : String) : AttRow :=
  { id := aid, date := "2024-06-01", child_name := nm, service := "Morning", day_tag := "T7",
    check_in_time := "08:00 AM", check_out_time := "", status := "Checked-In",
    event_id := none, event_name := none, session_id := none, session_label := some "Morning",
    session_period := none, state := none, church_location := none, camp_group := some "",
    notes := none, sync_status := "pending", synced_at := none, sync_uuid := some u }

/-- An already-synced queue row. -/
def qSyncd : QueueRow :=
  { id := 2, record_type := "attendance_log", record_id := some 2,
    operation := "check_in", payload := Payload.checkIn (mkInPayload 2 "Bob" "ub"),
    status := "synced", attempts := 5, last_error := none, last_attempt_at := some 4,
    sync_uuid := "ub", created_at := 0, updated_at := 4 }

/-- One pending and one already-synced queue item. -/
def st2 : SysState :=
  { db := { attendance_log := [mkAtt 1 "Ada" "ua"],
            sync_queue := [mkQIn 1 1 "Ada" "ua" 1, qSyncd],
            next_att_id := 2, next_queue_id := 3 },
    sheet := [] }

/-- Remote environment where dispatching queue item 2 raises "boom". -/
def env3 : RemoteEnv :=
  { now := 9, fail_dispatch := fun qid => if qid = 2 then some "boom" else none }

/-- Three pending check-in items (the second will fail its dispatch). -/
def st3 : SysState :=
  { db := { attendance_log := [mkAtt 1 "Ada" "ua", mkAtt 2 "Bob" "ub", mkAtt 3 "Cyd" "uc"],
            sync_queue := [mkQIn 1 1 "Ada" "ua" 1, mkQIn 2 2 "Bob" "ub" 2,
                           mkQIn 3 3 "Cyd" "uc" 3],
            next_att_id := 4, next_queue_id := 4 },
    sheet := [] }

/-- An empty local database. -/
def dbEmpty : LocalDB :=
  { attendance_log := [], sync_queue := [], next_att_id := 1, next_queue_id := 1 }

/-- Empty local-mode state. -/
def stL : SysState := { db := dbEmpty, sheet := [] }

/-- Local database with one matching Checked-In row and one row under another
day tag. -/
def db7 : LocalDB :=
  { attendance_log := [mkAtt 1 "Ada" "ua", { mkAtt 2 "Bob" "ub" with day_tag := "T8" }],
    sync_queue := [], next_att_id := 3, next_queue_id := 1 }

/-- State with a local Checked-In row for Ada and an empty remote sheet. -/
def stC5 : SysState :=
  { db := { attendance_log := [mkAtt 1 "Ada" "ua"], sync_queue := [],
            next_att_id := 2, next_queue_id := 1 },
    sheet := [] }

/-! ## Witnesses -/

/-- C1 witness: the duplicate-rejection theorem applied to `stDup`, where the
unified view of 2024-06-01 already shows Ada checked in. -/
theorem add_check_in_rejects_duplicate_witness :
    add_check_in false envW "u1" none "2024-06-01" "Ada" "Morning" "T7" "09:00 AM"
        detNone stDup
      = (stDup, { synced := false, pending := false,
                  error := some ("Ada" ++ " is already checked in."),
                  duplicate := true, record := none }) :=
  add_check_in_rejects_duplicate false envW "u1" none "2024-06-01" "Ada" "Morning" "T7"
    "09:00 AM" detNone stDup (by decide)

/-- C2 witness: the selection theorem applied to `st2` (one pending, one synced
item). -/
theorem flush_selects_only_pending_witness :
    (∀ q ∈ fetch_pending_queue 20 st2.db, q.status = "pending") ∧
    List.Sorted createdLe (fetch_pending_queue 20 st2.db) ∧
    (fetch_pending_queue 20 st2.db).length ≤ 20 ∧
    (∀ q ∈ fetch_pending_queue 20 st2.db, q ∈ st2.db.sync_queue) ∧
    ((st2.db.sync_queue.filter fun q => q.status == "pending").length ≤ 20 →
      (fetch_pending_queue 20 st2.db).Perm
        (st2.db.sync_queue.filter fun q => q.status == "pending")) ∧
    (∀ q ∈ st2.db.sync_queue, q.status ≠ "pending" →
      q ∈ (process_pending_queue false envW none 20 st2).1.db.sync_queue) :=
  flush_selects_only_pending envW 20 st2 (by decide)

/-- C3 witness: the isolation theorem applied to `st3` with `env3`, the
three-item batch whose second dispatch raises. -/
theorem flush_partial_failure_isolation_witness :
    (process_pending_queue false env3 none 20 st3).2.processed
        = ((fetch_pending_queue 20 st3.db).filter fun i => (item_error env3 i).isNone).length ∧
    (process_pending_queue false env3 none 20 st3).2.failed
        = ((fetch_pending_queue 20 st3.db).filter fun i => (item_error env3 i).isSome).length ∧
    ∀ i ∈ fetch_pending_queue 20 st3.db,
      i.status = "pending" ∧
      (∀ e, item_error env3 i = some e →
        { i with attempts := i.attempts + 1, last_attempt_at := some env3.now,
                 updated_at := env3.now, last_error := some (truncErr e) }
          ∈ (process_pending_queue false env3 none 20 st3).1.db.sync_queue) ∧
      (item_error env3 i = none →
        { i with attempts := i.attempts + 1, last_attempt_at := some env3.now,
                 updated_at := env3.now, status := "synced", last_error := none }
          ∈ (process_pending_queue false env3 none 20 st3).1.db.sync_queue) :=
  flush_partial_failure_isolation env3 20 st3 (by decide)

/-- C4 witness: the amended unknown-operation theorem applied to `stBad` and
its `"frobnicate"` item. -/
theorem flush_unknown_op_retained_pending_witness :
    item_error envW qBad = some ("Unsupported operation type: " ++ qBad.operation) ∧
    { qBad with
      attempts := qBad.attempts + 1, last_attempt_at := some envW.now,
      updated_at := envW.now,
      last_error := some (truncErr ("Unsupported operation type: " ++ qBad.operation)) }
        ∈ (process_pending_queue false envW none 20 stBad).1.db.sync_queue ∧
    ({ qBad with
       attempts := qBad.attempts + 1, last_attempt_at := some envW.now,
       updated_at := envW.now,
       last_error := some (truncErr ("Unsupported operation type: " ++ qBad.operation)) }
      : QueueRow).status = "pending" ∧
    { qBad with
      attempts := qBad.attempts + 1, last_attempt_at := some envW.now,
      updated_at := envW.now,
      last_error := some (truncErr ("Unsupported operation type: " ++ qBad.operation)) }
        ∈ ((process_pending_queue false envW none 20 stBad).1.db.sync_queue.filter
            fun q => q.status == "pending") :=
  flush_unknown_op_retained_pending envW 20 stBad (by decide) qBad (by decide)
    (by decide) (by decide)

/-- C5 witness: the direct-path fallback theorem applied to `stC5`, where the
remote sheet is empty (zero rows updated) while the queued payload names Ada. -/
theorem checkout_by_tag_uses_payload_names_witness :
    (checkout_by_tag false envW "u9" none "2024-06-01" "T7" "05:00 PM" stC5).2.children
      = (add_pending_checkout "u9" envW.now "2024-06-01" "T7" "05:00 PM" stC5.db).2.child_names ∧
    (checkout_by_tag false envW "u9" none "2024-06-01" "T7" "05:00 PM" stC5).2.synced = true :=
  checkout_by_tag_uses_payload_names envW "u9" "2024-06-01" "T7" "05:00 PM" stC5
    (by decide) (by decide)

/-- C6 (code defect): the attendance INSERT of `add_pending_check_in` names
nineteen columns but supplies a twenty-marker VALUES row, so sqlite rejects the
statement on every call — `cursor.execute` raises
`OperationalError("20 values for 19 columns")` before any row or queue item is
written and before the commit, and the exception propagates out of
`add_check_in` (the call at app.py line 679 is outside its try block).  The
one-row-plus-one-queue-item effect the specification describes is therefore
never reached by the program as written. -/
theorem add_pending_check_in_insert_arity_bug :
    checkInInsertColumns.length = 19 ∧
    countQMarks checkInInsertValues = 20 ∧
    checkInInsertColumns.length ≠ countQMarks checkInInsertValues ∧
    add_pending_check_in_raises "u6" 3 "2024-06-01" "Ada" "Morning" "T7" "08:00 AM"
        detNone dbEmpty = .error "20 values for 19 columns" :=
  ⟨by decide, by decide, by decide, rfl⟩

/-- C7 witness: the enqueue-checkout theorem applied to `db7`, where exactly the
T7 row matches and the T8 row must stay untouched. -/
theorem add_pending_checkout_effect_witness :
    (add_pending_checkout "u7" 5 "2024-06-01" "T7" "05:00 PM" db7).2.attendance_ids
      = (db7.attendance_log.filter (checkoutMatch "2024-06-01" "T7")).map (·.id) ∧
    (add_pending_checkout "u7" 5 "2024-06-01" "T7" "05:00 PM" db7).2.child_names
      = (db7.attendance_log.filter (checkoutMatch "2024-06-01" "T7")).map (·.child_name) ∧
    (add_pending_checkout "u7" 5 "2024-06-01" "T7" "05:00 PM" db7).1.attendance_log
      = db7.attendance_log.map (fun r =>
          if checkoutMatch "2024-06-01" "T7" r then
            { r with check_out_time := "05:00 PM", status := "Checked-Out",
                     sync_status := "pending", synced_at := none }
          else r) ∧
    (∃ q, (add_pending_checkout "u7" 5 "2024-06-01" "T7" "05:00 PM" db7).1.sync_queue
        = db7.sync_queue ++ [q] ∧
      q.operation = "checkout" ∧ q.status = "pending" ∧ q.attempts = 0 ∧
      q.payload = Payload.checkout
        { attendance_ids := (db7.attendance_log.filter
            (checkoutMatch "2024-06-01" "T7")).map (·.id),
          date := "2024-06-01", day_tag := "T7", checkout_time := "05:00 PM",
          child_names := (db7.attendance_log.filter
            (checkoutMatch "2024-06-01" "T7")).map (·.child_name) }) ∧
    (db7.attendance_log.filter (checkoutMatch "2024-06-01" "T7") = [] →
      (add_pending_checkout "u7" 5 "2024-06-01" "T7" "05:00 PM" db7).2.attendance_ids = [] ∧
      (add_pending_checkout "u7" 5 "2024-06-01" "T7" "05:00 PM" db7).2.child_names = []) :=
  add_pending_checkout_effect "u7" 5 "2024-06-01" "T7" "05:00 PM" db7 (by decide)

/-- C8 witness: the attempt-recording theorem applied to `st3`/`env3`,
including the item whose dispatch raises. -/
theorem flush_records_attempt_always_witness :
    ∃ q' ∈ (process_pending_queue false env3 none 20 st3).1.db.sync_queue,
      q'.id = (mkQIn 2 2 "Bob" "ub" 2).id ∧
      q'.attempts = (mkQIn 2 2 "Bob" "ub" 2).attempts + 1 ∧
      q'.last_attempt_at = some env3.now :=
  flush_records_attempt_always env3 20 st3 (by decide) (mkQIn 2 2 "Bob" "ub" 2) (by decide)

/-- C10 witness: the local-mode theorem applied to the empty local state. -/
theorem local_check_in_no_sync_bookkeeping_witness :
    (add_check_in true envW "u0" none "2024-06-01" "Ada" "Morning" "T7" "08:00 AM"
        detNone stL).2
      = { synced := true, pending := false, error := none, duplicate := false,
          record := none } ∧
    (add_check_in true envW "u0" none "2024-06-01" "Ada" "Morning" "T7" "08:00 AM"
        detNone stL).1.sheet = stL.sheet ∧
    (add_check_in true envW "u0" none "2024-06-01" "Ada" "Morning" "T7" "08:00 AM"
        detNone stL).1.db.sync_queue = stL.db.sync_queue ∧
    (∃ r, (add_check_in true envW "u0" none "2024-06-01" "Ada" "Morning" "T7" "08:00 AM"
        detNone stL).1.db.attendance_log = stL.db.attendance_log ++ [r] ∧
      r.sync_status = "synced" ∧ r.synced_at = none ∧ r.sync_uuid = none) ∧
    (∀ d, get_pending_attendance d
        (add_check_in true envW "u0" none "2024-06-01" "Ada" "Morning" "T7" "08:00 AM"
          detNone stL).1.db
      = get_pending_attendance d stL.db) :=
  local_check_in_no_sync_bookkeeping envW "u0" none "2024-06-01" "Ada" "Morning" "T7"
    "08:00 AM" detNone stL (by decide)

end AttendanceCheckin
